import Mathlib

/-!
Verification development for the `sveltekit-server-functions` preprocessor
(`src/lib/index.ts`).  The TypeScript source is shallowly embedded below:
text buffers are `List Char`, the Svelte AST is the `Root`/`JsNode` model
carrying exactly the fields the source reads (`type`, `start`, `end`,
`async`, `id.name`, `callee.name`, `name`, specifier local names), the
external `svelte/compiler` parser is an explicit oracle of type
`Parse := List Char → Option Root`, and the filesystem is an explicit
association list of paths to file contents.  Thrown-and-caught exceptions
are modelled with `Option`.
-/

set_option maxRecDepth 1000000

namespace SSF

/-- JS `haystack.includes(needle)` over character lists. -/
def includesL (needle : List Char) : List Char → Bool
  | [] => needle.isEmpty
  | c :: t => needle.isPrefixOf (c :: t) || includesL needle t

/-- JS `str.slice(a, b)` (characters in the half-open range `[a, b)`). -/
def sliceL (l : List Char) (a b : Nat) : List Char := (l.take b).drop a

/-- Whitespace characters relevant to the JS `trimStart`/`trimEnd` calls. -/
def isJsWhitespace (c : Char) : Bool := c = ' ' || c = '\n' || c = '\t' || c = '\r'

/-- JS `str.trimStart()`. -/
def trimStartL (l : List Char) : List Char := l.dropWhile isJsWhitespace

/-- JS `str.trimEnd()`. -/
def trimEndL (l : List Char) : List Char := (l.reverse.dropWhile isJsWhitespace).reverse

/-- JS `str.trim()`. -/
def trimL (l : List Char) : List Char := trimEndL (trimStartL l)

/-- JS `x || d` for `x : number | undefined`: both `undefined` and `0` are falsy. -/
def jsOrNat (x : Option Nat) (d : Nat) : Nat :=
  match x with
  | none => d
  | some 0 => d
  | some n => n

/-- Stable insertion of `a` into a list sorted by `le`. -/
def insertLe {α : Type} (le : α → α → Bool) (a : α) : List α → List α
  | [] => [a]
  | b :: bs => if le a b then a :: b :: bs else b :: insertLe le a bs

/-- Stable sort by the total boolean preorder `le`, modelling the stable JS
`Array.prototype.sort`.  A stable sort is uniquely determined by `le`, so any
stable implementation agrees with the source's. -/
def jsSort {α : Type} (le : α → α → Bool) (l : List α) : List α :=
  l.foldr (insertLe le) []

/-! SHA-256, translated from the standard algorithm that Node's
`crypto.createHash('sha256')` implements, over byte lists (`List Nat`,
each entry below 256), with 32-bit words as `Nat` reduced mod `2^32`. -/

namespace Sha256

/-- Reduce to a 32-bit word. -/
def w32 (n : Nat) : Nat := n % 4294967296

/-- Rotate a 32-bit word right by `n` bits. -/
def rotr (x n : Nat) : Nat := w32 ((x >>> n) ||| (x <<< (32 - n)))

/-- Bitwise complement of a 32-bit word. -/
def not32 (x : Nat) : Nat := x ^^^ 4294967295

/-- Big sigma-0. -/
def bsig0 (x : Nat) : Nat := rotr x 2 ^^^ rotr x 13 ^^^ rotr x 22

/-- Big sigma-1. -/
def bsig1 (x : Nat) : Nat := rotr x 6 ^^^ rotr x 11 ^^^ rotr x 25

/-- Small sigma-0. -/
def ssig0 (x : Nat) : Nat := rotr x 7 ^^^ rotr x 18 ^^^ (x >>> 3)

/-- Small sigma-1. -/
def ssig1 (x : Nat) : Nat := rotr x 17 ^^^ rotr x 19 ^^^ (x >>> 10)

/-- Choice function. -/
def ch (x y z : Nat) : Nat := (x &&& y) ^^^ (not32 x &&& z)

/-- Majority function. -/
def maj (x y z : Nat) : Nat := (x &&& y) ^^^ (x &&& z) ^^^ (y &&& z)

/-- Round constants (decimal values of the fractional parts of the cube
roots of the first 64 primes, as in FIPS 180-4). -/
def K : List Nat :=
  [1116352408, 1899447441, 3049323471, 3921009573, 961987163, 1508970993,
   2453635748, 2870763221, 3624381080, 310598401, 607225278, 1426881987,
   1925078388, 2162078206, 2614888103, 3248222580, 3835390401, 4022224774,
   264347078, 604807628, 770255983, 1249150122, 1555081692, 1996064986,
   2554220882, 2821834349, 2952996808, 3210313671, 3336571891, 3584528711,
   113926993, 338241895, 666307205, 773529912, 1294757372, 1396182291,
   1695183700, 1986661051, 2177026350, 2456956037, 2730485921, 2820302411,
   3259730800, 3345764771, 3516065817, 3600352804, 4094571909, 275423344,
   430227734, 506948616, 659060556, 883997877, 958139571, 1322822218,
   1537002063, 1747873779, 1955562222, 2024104815, 2227730452, 2361852424,
   2428436474, 2756734187, 3204031479, 3329325298]

/-- The eight 32-bit working variables. -/
structure Hash8 where
  a : Nat
  b : Nat
  c : Nat
  d : Nat
  e : Nat
  f : Nat
  g : Nat
  h : Nat
deriving Repr, DecidableEq

/-- Initial hash value (decimal). -/
def initH : Hash8 :=
  ⟨1779033703, 3144134277, 1013904242, 2773480762,
   1359893119, 2600822924, 528734635, 1541459225⟩

/-- One compression round, consuming a pair of round constant and schedule word. -/
def round (st : Hash8) (kw : Nat × Nat) : Hash8 :=
  let t1 := w32 (st.h + bsig1 st.e + ch st.e st.f st.g + kw.1 + kw.2)
  let t2 := w32 (bsig0 st.a + maj st.a st.b st.c)
  ⟨w32 (t1 + t2), st.a, st.b, st.c, w32 (st.d + t1), st.e, st.f, st.g⟩

/-- Extend the 16 message words by `k` more schedule words; `acc` holds the
words produced so far, most recent first. -/
def extendSchedule : Nat → List Nat → List Nat
  | 0, acc => acc.reverse
  | Nat.succ k, acc =>
    let w2 := acc.getD 1 0
    let w7 := acc.getD 6 0
    let w15 := acc.getD 14 0
    let w16 := acc.getD 15 0
    extendSchedule k (w32 (ssig1 w2 + w7 + ssig0 w15 + w16) :: acc)

/-- The 64-word message schedule of one 16-word block. -/
def schedule (block : List Nat) : List Nat := extendSchedule 48 block.reverse

/-- Compress one 16-word block into the running hash state. -/
def compress (st : Hash8) (block : List Nat) : Hash8 :=
  let fin := (K.zip (schedule block)).foldl round st
  ⟨w32 (st.a + fin.a), w32 (st.b + fin.b), w32 (st.c + fin.c), w32 (st.d + fin.d),
   w32 (st.e + fin.e), w32 (st.f + fin.f), w32 (st.g + fin.g), w32 (st.h + fin.h)⟩

/-- Group bytes into big-endian 32-bit words (input length a multiple of 4). -/
def bytesToWords : List Nat → List Nat
  | b0 :: b1 :: b2 :: b3 :: rest =>
    (b0 * 16777216 + b1 * 65536 + b2 * 256 + b3) :: bytesToWords rest
  | _ => []

/-- Group a word list into 16-word blocks (the fuel, one unit per word, is
an upper bound on the number of blocks). -/
def chunksGo : Nat → List Nat → List (List Nat)
  | 0, _ => []
  | Nat.succ k, ws => if ws.isEmpty then [] else ws.take 16 :: chunksGo k (ws.drop 16)

/-- Group a word list into 16-word blocks. -/
def chunks16 (ws : List Nat) : List (List Nat) := chunksGo ws.length ws

/-- Encode a `Nat` as `k` big-endian bytes. -/
def natBytes : Nat → Nat → List Nat
  | 0, _ => []
  | Nat.succ k, n => (n >>> (8 * k)) % 256 :: natBytes k n

/-- SHA-256 message padding: `0x80`, zeros, then the 64-bit bit length. -/
def pad (msg : List Nat) : List Nat :=
  let len := msg.length
  let zeros := (64 - ((len + 9) % 64)) % 64
  msg ++ 128 :: List.replicate zeros 0 ++ natBytes 8 (len * 8)

/-- Big-endian bytes of a 32-bit word. -/
def wordBytes (w : Nat) : List Nat :=
  [(w >>> 24) % 256, (w >>> 16) % 256, (w >>> 8) % 256, w % 256]

/-- The 32-byte digest of a final state. -/
def digestBytes (st : Hash8) : List Nat :=
  wordBytes st.a ++ wordBytes st.b ++ wordBytes st.c ++ wordBytes st.d ++
  wordBytes st.e ++ wordBytes st.f ++ wordBytes st.g ++ wordBytes st.h

/-- SHA-256 of a byte list. -/
def sha256 (msg : List Nat) : List Nat :=
  digestBytes ((chunks16 (bytesToWords (pad msg))).foldl compress initH)

end Sha256

/-- UTF-8 encoding of one character (Node `Buffer.from(str, 'utf8')`). -/
def charUtf8 (c : Char) : List Nat :=
  let n := c.toNat
  if n < 128 then [n]
  else if n < 2048 then [192 + n / 64, 128 + n % 64]
  else if n < 65536 then [224 + n / 4096, 128 + (n / 64) % 64, 128 + n % 64]
  else [240 + n / 262144, 128 + (n / 4096) % 64, 128 + (n / 64) % 64, 128 + n % 64]

/-- UTF-8 bytes of a string. -/
def utf8Bytes (s : String) : List Nat := s.data.flatMap charUtf8

/-- Alphabet of base64url. -/
def b64Alphabet : List Char :=
  ("ABCDEFGHIJKLMNOPQRSTUVWXYZabcdefghijklmnopqrstuvwxyz0123456789-_").data

/-- Character of one 6-bit group. -/
def b64Char (n : Nat) : Char := b64Alphabet.getD n 'A'

/-- Node `digest('base64url')`: base64url without padding. -/
def base64url : List Nat → List Char
  | b0 :: b1 :: b2 :: rest =>
    b64Char (b0 / 4) :: b64Char ((b0 % 4) * 16 + b1 / 16) ::
    b64Char ((b1 % 16) * 4 + b2 / 64) :: b64Char (b2 % 64) :: base64url rest
  | [b0, b1] => [b64Char (b0 / 4), b64Char ((b0 % 4) * 16 + b1 / 16), b64Char ((b1 % 16) * 4)]
  | [b0] => [b64Char (b0 / 4), b64Char ((b0 % 4) * 16)]
  | [] => []

/-- Result record of `PathUtils.generatePaths`. -/
structure PathResult where
  apiPath : String
  routePath : String
deriving Repr, DecidableEq

namespace PathUtils

/-- Node `path.relative(path.join(cwd, 'src'), path.normalize(filename))`,
modelled for the supported case of an already-normalized absolute `filename`
lying under `cwd ++ "/src"` (every input considered in this development is of
that shape); other filenames are returned unchanged. -/
def relativeToSrc (cwd : String) (filename : String) : String :=
  let pre := (cwd ++ "/src/").data
  if pre.isPrefixOf filename.data then String.mk (filename.data.drop pre.length) else filename

/-- The `relativePath` computation of `generatePaths`:
`filename ? path.relative(...).replace(/\\/g, '/') : 'unknown'`. -/
def relativePathOf (filename : Option String) (cwd : String) : String :=
  match filename with
  | some f => String.mk ((relativeToSrc cwd f).data.map (fun c => if c = '\\' then '/' else c))
  | none => "unknown"

/-- The truncated hash of `generatePaths`:
`crypto.createHash('sha256').update(str).digest('base64url').slice(0, 8)`. -/
def hashOf (str : String) : String :=
  String.mk ((base64url (Sha256.sha256 (utf8Bytes str))).take 8)

/-- Embedding of `PathUtils.generatePaths` (source lines 506-519).  `cwd`
models `process.cwd()`. -/
def generatePaths (functionName : String) (filename : Option String) (cwd : String) : PathResult :=
  let relativePath := relativePathOf filename cwd
  let str := relativePath ++ ":" ++ functionName
  let hash := hashOf str
  let uniquePath := functionName ++ "_" ++ hash
  { apiPath := cwd ++ "/src/routes/api/" ++ uniquePath ++ "/+server.ts",
    routePath := uniquePath }

end PathUtils

/-! The Svelte AST model.  A `JsNode` carries exactly the fields the source
reads from `svelte/compiler` nodes: `type`, `start`, `end`, `async`,
`id?.name`, `callee?.name`, `name` (for identifiers) and the specifiers'
local names (for import declarations).  `args` models the `arguments` field
of call expressions; `children` models all other structural children the
`estree-walker` visitor descends into. -/

/-- Field record of one AST node. -/
structure NodeData where
  kind : String
  start : Nat
  «end» : Nat
  async : Bool := false
  idName : Option String := none
  calleeName : Option String := none
  name : Option String := none
  specifiers : List String := []
deriving Repr, DecidableEq

/-- One AST node with its argument list and other children. -/
inductive JsNode where
  | mk (data : NodeData) (args : List JsNode) (children : List JsNode)

/-- Field record of a node. -/
def JsNode.data : JsNode → NodeData
  | .mk d _ _ => d

/-- The `arguments` children of a node. -/
def JsNode.args : JsNode → List JsNode
  | .mk _ a _ => a

/-- The remaining structural children of a node. -/
def JsNode.children : JsNode → List JsNode
  | .mk _ _ c => c

/-- The parsed root: `ast.instance.content` (primary script region program)
and `ast.fragment` (markup region). -/
structure Root where
  instanceContent : Option JsNode := none
  fragment : Option JsNode := none

/-- The external `svelte/compiler` `parse` is an oracle; `none` models a
thrown parse error. -/
abbrev Parse : Type := List Char → Option Root

/-- Oracle built from a finite table of parses; every other buffer is a
parse error. -/
def oracleOf (entries : List (List Char × Root)) : Parse :=
  fun c => (entries.find? (fun e => e.1 == c)).map (fun e => e.2)

/-- Element of `AstUtils.findServerFunctions`' result. -/
structure ServerFunction where
  name : String
  node : JsNode
  start : Nat
  «end» : Nat

/-- Argument-list span of a located call. -/
structure ArgsSpan where
  start : Nat
  «end» : Nat
deriving Repr, DecidableEq

/-- Element of `AstUtils.findFunctionCalls`' result. -/
structure FunctionCall where
  start : Nat
  «end» : Nat
  arguments : ArgsSpan
deriving Repr, DecidableEq

/-- Element of `AstUtils.findUnusedImports`' result. -/
structure ImportNode where
  start : Nat
  «end» : Nat
deriving Repr, DecidableEq

namespace AstUtils

/-- The qualification test of `findServerFunctions`' visitor:
`node.type === 'FunctionDeclaration' && node.async && node.id?.name?.startsWith('server_')`. -/
def isServerFunctionNode (d : NodeData) : Bool :=
  d.kind == "FunctionDeclaration" && d.async &&
    (match d.idName with
     | some n => ("server_").data.isPrefixOf n.data
     | none => false)

mutual

/-- Visitor of `findServerFunctions` on one node (pre-order, no skipping). -/
def findServerFunctionsNode : JsNode → List ServerFunction
  | .mk d args children =>
    (if isServerFunctionNode d then
      [{ name := d.idName.getD "", node := .mk d args children, start := d.start, «end» := d.«end» }]
     else []) ++ findServerFunctionsList args ++ findServerFunctionsList children
termination_by structural x => x

/-- Visitor of `findServerFunctions` on a child list. -/
def findServerFunctionsList : List JsNode → List ServerFunction
  | [] => []
  | n :: ns => findServerFunctionsNode n ++ findServerFunctionsList ns
termination_by structural x => x

end

/-- Embedding of `AstUtils.findServerFunctions` (source lines 342-365): walks
only `ast.instance.content`, never the fragment. -/
def findServerFunctions (ast : Root) : List ServerFunction :=
  match ast.instanceContent with
  | none => []
  | some content => findServerFunctionsNode content

/-- The match test of `findFunctionCalls`' visitor:
`node.type === 'CallExpression' && node.callee?.name === functionName`. -/
def isCallTo (functionName : String) (d : NodeData) : Bool :=
  d.kind == "CallExpression" && d.calleeName == some functionName

/-- Call record built by `findFunctionCalls` from a matching node, with the
JS `||` fallbacks `arguments[0]?.start || end - 1` and
`arguments[arguments.length - 1]?.end || end - 1`. -/
def mkFunctionCall (n : JsNode) : FunctionCall :=
  { start := n.data.start, «end» := n.data.«end»,
    arguments :=
      { start := jsOrNat (n.args.head?.map (fun a => a.data.start)) (n.data.«end» - 1),
        «end» := jsOrNat (n.args.getLast?.map (fun a => a.data.«end»)) (n.data.«end» - 1) } }

mutual

/-- Visitor of `findFunctionCalls` on one node. -/
def findCallsNode (functionName : String) : JsNode → List FunctionCall
  | .mk d args children =>
    (if isCallTo functionName d then [mkFunctionCall (.mk d args children)] else []) ++
    findCallsList functionName args ++ findCallsList functionName children
termination_by structural x => x

/-- Visitor of `findFunctionCalls` on a child list. -/
def findCallsList (functionName : String) : List JsNode → List FunctionCall
  | [] => []
  | n :: ns => findCallsNode functionName n ++ findCallsList functionName ns
termination_by structural x => x

end

/-- Embedding of `AstUtils.findFunctionCalls` (source lines 370-409): walks
the fragment first, then the instance script. -/
def findFunctionCalls (ast : Root) (functionName : String) : List FunctionCall :=
  (match ast.fragment with
   | none => []
   | some fr => findCallsNode functionName fr) ++
  (match ast.instanceContent with
   | none => []
   | some c => findCallsNode functionName c)

mutual

/-- Visitor of `collectUsedIdentifiers` on one node: `this.skip()` on import
declarations (their subtree, specifier names included, is never visited). -/
def collectUsedNode : JsNode → List String
  | .mk d args children =>
    if d.kind == "ImportDeclaration" then []
    else
      (if d.kind == "Identifier" then [d.name.getD ""] else []) ++
      collectUsedList args ++ collectUsedList children
termination_by structural x => x

/-- Visitor of `collectUsedIdentifiers` on a child list. -/
def collectUsedList : List JsNode → List String
  | [] => []
  | n :: ns => collectUsedNode n ++ collectUsedList ns
termination_by structural x => x

end

/-- Embedding of `AstUtils.collectUsedIdentifiers` (source lines 451-469):
identifiers of the instance script only, import subtrees skipped.  The
source returns a `Set`; the embedding returns the insertion-ordered list,
used only through membership. -/
def collectUsedIdentifiers (ast : Root) : List String :=
  match ast.instanceContent with
  | none => []
  | some c => collectUsedNode c

/-- The prune test of `findUnusedImports`:
`node.specifiers.every(s => !usedIdentifiers.has(s.local.name))`. -/
def allSpecifiersUnused (used : List String) (d : NodeData) : Bool :=
  d.specifiers.all (fun s => !used.contains s)

mutual

/-- Visitor of `findUnusedImports` on one node (no skipping). -/
def findUnusedImportsNode (used : List String) : JsNode → List ImportNode
  | .mk d args children =>
    (if d.kind == "ImportDeclaration" && allSpecifiersUnused used d then
      [{ start := d.start, «end» := d.«end» }]
     else []) ++
    findUnusedImportsList used args ++ findUnusedImportsList used children
termination_by structural x => x

/-- Visitor of `findUnusedImports` on a child list. -/
def findUnusedImportsList (used : List String) : List JsNode → List ImportNode
  | [] => []
  | n :: ns => findUnusedImportsNode used n ++ findUnusedImportsList used ns
termination_by structural x => x

end

/-- Embedding of `AstUtils.findUnusedImports` (source lines 474-496). -/
def findUnusedImports (ast : Root) (usedIdentifiers : List String) : List ImportNode :=
  match ast.instanceContent with
  | none => []
  | some c => findUnusedImportsNode usedIdentifiers c

mutual

/-- Identifier collector of `extractFunctionDetails`' inner walk (all
identifier nodes of a subtree, nothing skipped). -/
def identifiersInNode : JsNode → List String
  | .mk d args children =>
    (if d.kind == "Identifier" then [d.name.getD ""] else []) ++
    identifiersInList args ++ identifiersInList children
termination_by structural x => x

/-- Identifier collector on a child list. -/
def identifiersInList : List JsNode → List String
  | [] => []
  | n :: ns => identifiersInNode n ++ identifiersInList ns
termination_by structural x => x

end

mutual

/-- Import-declaration node collector (used by `extractFunctionDetails`). -/
def importDeclsNode : JsNode → List NodeData
  | .mk d args children =>
    (if d.kind == "ImportDeclaration" then [d] else []) ++
    importDeclsList args ++ importDeclsList children
termination_by structural x => x

/-- Import-declaration collector on a child list. -/
def importDeclsList : List JsNode → List NodeData
  | [] => []
  | n :: ns => importDeclsNode n ++ importDeclsList ns
termination_by structural x => x

end

/-- Result record of `extractFunctionDetails`. -/
structure FunctionDetails where
  imports : List String
  functionDefinition : List Char
deriving Repr, DecidableEq

/-- Embedding of `AstUtils.extractFunctionDetails` (source lines 414-446):
re-parses `content` via the oracle, collects the identifiers used in the
function's subtree, and keeps the source text of every instance-script import
declaration binding at least one of them.  A parse failure propagates as
`none` (the source would throw into `createEndpoint`'s catch). -/
def extractFunctionDetails (p : Parse) (content : List Char) (serverFunc : ServerFunction) :
    Option FunctionDetails :=
  match p content with
  | none => none
  | some ast =>
    let usedIdentifiers := identifiersInNode serverFunc.node
    let decls :=
      match ast.instanceContent with
      | none => []
      | some c => importDeclsNode c
    let relevant := decls.filter (fun d => d.specifiers.any (fun s => usedIdentifiers.contains s))
    some { imports := relevant.map (fun d => String.mk (sliceL content d.start d.«end»)),
           functionDefinition := sliceL content serverFunc.start serverFunc.«end» }

end AstUtils

namespace ServerFunctionTransformer

/-- The `payloadStr` computation of `generateFetchCall`: JS string truthiness
makes the empty trimmed argument text produce `\x7b\x7d`; otherwise the text is
split on every comma and each piece is keyed by its position. -/
def payloadStr (params : List Char) : List Char :=
  if (trimL params).isEmpty then ['\x7b', '\x7d']
  else
    '\x7b' :: List.intercalate [','] ((params.splitOn ',').enum.map
      (fun pr => '"' :: (toString pr.1).data ++ '"' :: ':' :: ' ' :: trimL pr.2)) ++ ['\x7d']

/-- Embedding of `ServerFunctionTransformer.generateFetchCall` (source lines
291-307), reproducing the template literal character for character. -/
def generateFetchCall (routePath : String) (params : List Char) : List Char :=
  ("fetch('/api/").data ++ routePath.data ++
  ("', \x7b\n        method: 'POST',\n        headers: \x7b 'Content-Type': 'application/json' \x7d,\n        body: JSON.stringify(").data ++
  payloadStr params ++
  (")\n    \x7d).then(response => \x7b\n        if (!response.ok) throw new Error('API call failed: ' + response.statusText);\n        return response.json();\n    \x7d)").data

/-- The splice shared by definition removal and import removal:
`content.slice(0, start).trimEnd() + '\n' + content.slice(end).trimStart()`. -/
def spliceOut (content : List Char) (start «end» : Nat) : List Char :=
  trimEndL (content.take start) ++ '\n' :: trimStartL (content.drop «end»)

/-- One call-site replacement:
`content.slice(0, call.start) + fetchCall + content.slice(call.end)`. -/
def replaceCall (routePath : String) (content : List Char) (call : FunctionCall) : List Char :=
  let argsText := sliceL content call.arguments.start call.arguments.«end»
  let fetchCall := generateFetchCall routePath argsText
  content.take call.start ++ fetchCall ++ content.drop call.«end»

/-- The call-replacement loop of `transformServerFunction`: stable sort by
descending `start` (JS `sort((a, b) => b.start - a.start)`), then sequential
replacement. -/
def replaceCalls (routePath : String) (content : List Char) (calls : List FunctionCall) :
    List Char :=
  (jsSort (fun a b => decide (b.start ≤ a.start)) calls).foldl (replaceCall routePath) content

/-- Embedding of `ServerFunctionTransformer.cleanupUnusedImports` (source
lines 312-332).  The whole body sits in a `try`: a failing re-parse is caught
locally, a warning is logged, and the buffer is returned as it was. -/
def cleanupUnusedImports (p : Parse) (content : List Char) : List Char :=
  match p content with
  | none => content
  | some updatedAst =>
    let usedIdentifiers := AstUtils.collectUsedIdentifiers updatedAst
    let unusedImports := AstUtils.findUnusedImports updatedAst usedIdentifiers
    (jsSort (fun a b => decide (b.start ≤ a.start)) unusedImports).foldl
      (fun c importNode => spliceOut c importNode.start importNode.«end») content

/-- Embedding of `ServerFunctionTransformer.transformServerFunction` (source
lines 265-286).  `ast` is `this.ast`, parsed once in the constructor from the
original buffer; the source never reassigns it. -/
def transformServerFunction (p : Parse) (ast : Root) (content : List Char)
    (serverFunc : ServerFunction) (routePath : String) : List Char :=
  let calls := AstUtils.findFunctionCalls ast serverFunc.name
  let c1 := replaceCalls routePath content calls
  let c2 := spliceOut c1 serverFunc.start serverFunc.«end»
  cleanupUnusedImports p c2

/-- Embedding of `ServerFunctionTransformer.process` plus the constructor
(source lines 234-260): parse the original buffer once (`none` models the
constructor throwing), return the buffer unchanged when no server function is
found, otherwise fold `transformServerFunction` over the functions in
descending `start` order, always against the one initial `ast`. -/
def process (p : Parse) (cwd : String) (content : List Char) (filename : Option String) :
    Option (List Char) :=
  match p content with
  | none => none
  | some ast =>
    let serverFunctions := AstUtils.findServerFunctions ast
    if serverFunctions.isEmpty then some content
    else
      some ((jsSort (fun a b => decide (b.start ≤ a.start)) serverFunctions).foldl
        (fun c func =>
          let routePath := (PathUtils.generatePaths func.name filename cwd).routePath
          transformServerFunction p ast c func routePath) content)

end ServerFunctionTransformer

/-- The textual fast-path marker `'async function server_'`. -/
def marker : List Char := ("async function server_").data

/-- Embedding of `isSkippableFile` (source lines 103-110). -/
def isSkippableFile (filename : Option String) : Bool :=
  match filename with
  | none => true
  | some f =>
    if !(".svelte").data.isSuffixOf f.data then true
    else includesL (".svelte-kit").data f.data || includesL ("node_modules").data f.data

/-- Embedding of `transformFile` (source lines 84-98): skip fast paths, run
the transformer, and fail open (return the original content) when the
transformer's constructor parse throws. -/
def transformFile (p : Parse) (cwd : String) (content : List Char) (filename : Option String) :
    List Char :=
  if isSkippableFile filename || !includesL marker content then content
  else
    match ServerFunctionTransformer.process p cwd content filename with
    | some code => code
    | none => content

/-! The filesystem model used by `EndpointManager`: an association list of
file paths to character contents.  Directories are implicit in paths. -/

/-- Filesystem state. -/
structure FS where
  files : List (String × List Char)

/-- Node `fs.readFileSync` (as `Option`). -/
def FS.read (fs : FS) (p : String) : Option (List Char) :=
  (fs.files.find? (fun e => e.1 == p)).map (fun e => e.2)

/-- Node `fs.existsSync` on a file path. -/
def FS.existsFile (fs : FS) (p : String) : Bool :=
  (fs.read p).isSome

/-- Node `fs.writeFileSync`. -/
def FS.write (fs : FS) (p : String) (c : List Char) : FS :=
  ⟨(p, c) :: fs.files.filter (fun e => e.1 != p)⟩

/-- Filesystem plus a count of `writeFileSync` calls performed so far. -/
structure Effects where
  fs : FS
  writes : Nat

namespace EndpointManager

/-- The `apiDir` field: `path.join(process.cwd(), 'src', 'routes', 'api')`. -/
def apiDir (cwd : String) : String := cwd ++ "/src/routes/api"

/-- The `srcDir` field: `path.join(process.cwd(), 'src')`. -/
def srcDir (cwd : String) : String := cwd ++ "/src"

/-- Embedding of `EndpointManager.generateApiContent` (source lines 210-223),
reproducing the template literal character for character. -/
def generateApiContent (functionDefinition : List Char) (functionName : String)
    (imports : List String) : List Char :=
  (String.intercalate "\n" imports).data ++
  ("\n\nimport \x7b json \x7d from '@sveltejs/kit';\nimport type \x7b RequestHandler \x7d from './$types';\n\nexport const POST: RequestHandler = async (\x7b request \x7d) => \x7b\n    ").data ++
  functionDefinition ++
  ("\n    const payload: Record<string, unknown> = await request.json();\n    const args = Object.values(payload) as Parameters<typeof ").data ++
  functionName.data ++
  (">;\n    const result = await ").data ++
  functionName.data ++
  ("(...args);\n    return json(result);\n\x7d;").data

/-- Embedding of `EndpointManager.createEndpoint` (source lines 190-205):
render the handler, then write only when the file is missing or its content
differs (`!fs.existsSync(apiPath) || fs.readFileSync(apiPath) !== apiContent`).
A failure of the inner re-parse is caught and logged, skipping the write. -/
def createEndpoint (p : Parse) (apiPath : String) (content : List Char)
    (serverFunc : ServerFunction) (eff : Effects) : Effects :=
  match AstUtils.extractFunctionDetails p content serverFunc with
  | none => eff
  | some det =>
    let apiContent := generateApiContent det.functionDefinition serverFunc.name det.imports
    if !eff.fs.existsFile apiPath || decide (eff.fs.read apiPath ≠ some apiContent) then
      { fs := eff.fs.write apiPath apiContent, writes := eff.writes + 1 }
    else eff

/-- Embedding of `EndpointManager.processFile` (source lines 167-185): read
the file, short-circuit on the textual marker, parse (a failure is caught and
logged), and create one endpoint per located server function. -/
def processFile (p : Parse) (cwd : String) (filePath : String) (eff : Effects) : Effects :=
  match eff.fs.read filePath with
  | none => eff
  | some content =>
    if !includesL marker content then eff
    else
      match p content with
      | none => eff
      | some ast =>
        (AstUtils.findServerFunctions ast).foldl
          (fun e func =>
            let apiPath := (PathUtils.generatePaths func.name (some filePath) cwd).apiPath
            createEndpoint p apiPath content func e) eff

/-- Embedding of `EndpointManager.scanAndCreateEndpoints` (source lines
149-162): recursively enumerate the source root (snapshot), keep `.svelte`
files, and process each. -/
def scanAndCreateEndpoints (p : Parse) (cwd : String) (eff : Effects) : Effects :=
  let pre := (srcDir cwd ++ "/").data
  let files := (eff.fs.files.map (fun e => e.1)).filter (fun f => pre.isPrefixOf f.data)
  (files.filter (fun f => (".svelte").data.isSuffixOf f.data)).foldl
    (fun e f => processFile p cwd f e) eff

/-- Immediate child entry name of `dir` on the way to file path `q`. -/
def childNameOf (dir : String) (q : String) : String :=
  String.mk ((q.data.drop (dir.length + 1)).takeWhile (fun c => c ≠ '/'))

/-- Whether `dir ++ "/" ++ entry` is a directory (some file lies strictly
beneath it). -/
def isDirEntry (fs : FS) (dir : String) (entry : String) : Bool :=
  fs.files.any (fun e => (dir ++ "/" ++ entry ++ "/").data.isPrefixOf e.1.data)

/-- Embedding of `EndpointManager.cleanupEndpoints` (source lines 127-144):
if the api directory exists, remove every directory entry directly beneath it
whose name starts with `server_`, recursively. -/
def cleanupEndpoints (cwd : String) (eff : Effects) : Effects :=
  let dir := apiDir cwd
  let pre := (dir ++ "/").data
  if !eff.fs.files.any (fun e => pre.isPrefixOf e.1.data) then eff
  else
    let entries := ((eff.fs.files.map (fun e => e.1)).filter
      (fun q => pre.isPrefixOf q.data)).map (childNameOf dir)
    let victims := entries.filter
      (fun n => ("server_").data.isPrefixOf n.data && isDirEntry eff.fs dir n)
    { fs := ⟨eff.fs.files.filter
        (fun e => !victims.any (fun v => (dir ++ "/" ++ v ++ "/").data.isPrefixOf e.1.data))⟩,
      writes := eff.writes }

end EndpointManager

/-- The startup sweep performed by `serverFunctions()` (source lines 68-72):
clean up previously generated endpoints, then scan and (re)create. -/
def runSweep (p : Parse) (cwd : String) (eff : Effects) : Effects :=
  EndpointManager.scanAndCreateEndpoints p cwd (EndpointManager.cleanupEndpoints cwd eff)

/-- The preprocessor hook record returned by `serverFunctions()`.  Each hook
is given the filesystem explicitly so that its filesystem effect is part of
the embedding; the source's `markup`/`script`/`style` callbacks contain no
filesystem API call on any path, so their embeddings thread the state
through unchanged. -/
structure Preprocessor where
  markup : FS → List Char → Option String → FS × List Char
  style : FS → List Char → FS × List Char
  script : FS → List Char → Option String → FS × List Char

/-- Embedding of the default export `serverFunctions()` (source lines 68-79):
the one-time startup sweep runs as a side effect of construction, and the
returned hooks delegate to `transformFile` (markup, script) or pass content
through (style). -/
def serverFunctions (p : Parse) (cwd : String) (eff : Effects) : Effects × Preprocessor :=
  (runSweep p cwd eff,
   { markup := fun fs content filename => (fs, transformFile p cwd content filename),
     style := fun fs content => (fs, content),
     script := fun fs content filename => (fs, transformFile p cwd content filename) })

/-! Concrete Svelte documents with their parses, used as test inputs and
counterexamples.  Character offsets in the node spans below are 0-based
positions into the document text, as produced by `svelte/compiler`. -/

namespace Docs

/-- Shorthand for an `Identifier` node. -/
def ident (name : String) (s e : Nat) : JsNode :=
  .mk { kind := "Identifier", start := s, «end» := e, name := some name } [] []

/-- Shorthand for a numeric `Literal` node. -/
def lit (s e : Nat) : JsNode :=
  .mk { kind := "Literal", start := s, «end» := e } [] []

/-- An empty markup fragment. -/
def emptyFragment : JsNode :=
  .mk { kind := "Fragment", start := 0, «end» := 0 } [] []

/-! Document A: one tagged function with one zero-argument call site that
comes before the definition (legal JS thanks to declaration hoisting). -/

/-- Document A text; the call `server_f()` spans `[16, 26)` and the
declaration spans `[28, 66)`. -/
def aText : String :=
  "<script>let a = server_f(); async function server_f() \x7b return 1 \x7d</script>"

/-- The call expression `server_f()` at `[16, 26)` with an empty argument
list. -/
def aCall : JsNode :=
  .mk { kind := "CallExpression", start := 16, «end» := 26, calleeName := some "server_f" }
    [] [ident "server_f" 16 24]

/-- The declaration `async function server_f() { return 1 }` at `[28, 66)`. -/
def aFunc : JsNode :=
  .mk { kind := "FunctionDeclaration", start := 28, «end» := 66, async := true,
        idName := some "server_f" } []
    [ident "server_f" 43 51,
     .mk { kind := "BlockStatement", start := 54, «end» := 66 } []
       [.mk { kind := "ReturnStatement", start := 56, «end» := 64 } [] [lit 63 64]]]

/-- Instance-script program of document A. -/
def aProgram : JsNode :=
  .mk { kind := "Program", start := 8, «end» := 66 } []
    [.mk { kind := "VariableDeclaration", start := 8, «end» := 27 } []
       [.mk { kind := "VariableDeclarator", start := 12, «end» := 26 } []
          [ident "a" 12 13, aCall]],
     aFunc]

/-- Parse of document A. -/
def aAst : Root := { instanceContent := some aProgram, fragment := some emptyFragment }

/-- Oracle knowing only document A; every edited buffer is a parse error,
as the buffer the transformer produces for document A is malformed JS. -/
def aParse : Parse := oracleOf [(aText.data, aAst)]

/-- Filename of document A. -/
def aFile : String := "/app/src/routes/p.svelte"

/-- Definition text of document A's tagged function. -/
def aDefText : String := "async function server_f() \x7b return 1 \x7d"

/-! Document B: an import whose only use is in the markup region, plus a
tagged function without call sites. -/

/-- Document B text; the import spans `[8, 30)`, the declaration `[31, 69)`,
and the markup expression `{X}` uses the imported name. -/
def bText : String :=
  "<script>import \x7b X \x7d from 'x'; async function server_h() \x7b return 0 \x7d</script>\n<p>\x7bX\x7d</p>"

/-- The import declaration of document B (local names: `X`). -/
def bImport : JsNode :=
  .mk { kind := "ImportDeclaration", start := 8, «end» := 30, specifiers := ["X"] } []
    [.mk { kind := "ImportSpecifier", start := 17, «end» := 18 } [] [ident "X" 17 18]]

/-- The declaration `async function server_h() { return 0 }` at `[31, 69)`. -/
def bFunc : JsNode :=
  .mk { kind := "FunctionDeclaration", start := 31, «end» := 69, async := true,
        idName := some "server_h" } []
    [ident "server_h" 46 54,
     .mk { kind := "BlockStatement", start := 57, «end» := 69 } []
       [.mk { kind := "ReturnStatement", start := 59, «end» := 67 } [] [lit 66 67]]]

/-- Instance-script program of document B. -/
def bProgram : JsNode :=
  .mk { kind := "Program", start := 8, «end» := 69 } [] [bImport, bFunc]

/-- Markup fragment of document B: `\n<p>{X}</p>`. -/
def bFragment : JsNode :=
  .mk { kind := "Fragment", start := 78, «end» := 89 } []
    [.mk { kind := "Text", start := 78, «end» := 79 } [] [],
     .mk { kind := "RegularElement", start := 79, «end» := 89 } []
       [.mk { kind := "ExpressionTag", start := 82, «end» := 85 } [] [ident "X" 83 84]]]

/-- Parse of document B. -/
def bAst : Root := { instanceContent := some bProgram, fragment := some bFragment }

/-- The buffer the transformer produces from document B after removing the
tagged function (no call sites, whitespace trimmed around the splice). -/
def bEdited : String :=
  "<script>import \x7b X \x7d from 'x';\n</script>\n<p>\x7bX\x7d</p>"

/-- The import declaration of the edited buffer (same text, same span). -/
def bEditedImport : JsNode :=
  .mk { kind := "ImportDeclaration", start := 8, «end» := 30, specifiers := ["X"] } []
    [.mk { kind := "ImportSpecifier", start := 17, «end» := 18 } [] [ident "X" 17 18]]

/-- Instance-script program of the edited buffer of document B. -/
def bEditedProgram : JsNode :=
  .mk { kind := "Program", start := 8, «end» := 30 } [] [bEditedImport]

/-- Markup fragment of the edited buffer: `\n<p>{X}</p>` at `[40, 51)`. -/
def bEditedFragment : JsNode :=
  .mk { kind := "Fragment", start := 40, «end» := 51 } []
    [.mk { kind := "Text", start := 40, «end» := 41 } [] [],
     .mk { kind := "RegularElement", start := 41, «end» := 51 } []
       [.mk { kind := "ExpressionTag", start := 44, «end» := 47 } [] [ident "X" 45 46]]]

/-- Parse of the edited buffer of document B. -/
def bEditedAst : Root :=
  { instanceContent := some bEditedProgram, fragment := some bEditedFragment }

/-- Oracle knowing document B and its edited buffer (both are well-formed
Svelte, so both parse). -/
def bParse : Parse := oracleOf [(bText.data, bAst), (bEdited.data, bEditedAst)]

/-- Filename of document B. -/
def bFile : String := "/app/src/routes/q.svelte"

/-! Document C: a tagged function nested inside another function body. -/

/-- Document C text; the outer declaration spans `[8, 73)`, the nested
declaration `async function server_n() { return 3 }` spans `[33, 71)`. -/
def cText : String :=
  "<script>async function outer() \x7b async function server_n() \x7b return 3 \x7d \x7d</script>"

/-- The nested declaration at `[33, 71)`. -/
def cInner : JsNode :=
  .mk { kind := "FunctionDeclaration", start := 33, «end» := 71, async := true,
        idName := some "server_n" } []
    [ident "server_n" 48 56,
     .mk { kind := "BlockStatement", start := 59, «end» := 71 } []
       [.mk { kind := "ReturnStatement", start := 61, «end» := 69 } [] [lit 68 69]]]

/-- The outer declaration `async function outer() { ... }` at `[8, 73)`. -/
def cOuter : JsNode :=
  .mk { kind := "FunctionDeclaration", start := 8, «end» := 73, async := true,
        idName := some "outer" } []
    [ident "outer" 23 28,
     .mk { kind := "BlockStatement", start := 31, «end» := 73 } [] [cInner]]

/-- Instance-script program of document C. -/
def cProgram : JsNode :=
  .mk { kind := "Program", start := 8, «end» := 73 } [] [cOuter]

/-- Parse of document C. -/
def cAst : Root := { instanceContent := some cProgram, fragment := some emptyFragment }

/-! Document D: the textual marker appears only as markup text; the script
declares no function at all. -/

/-- Document D text. -/
def dText : String := "<script>let y = 2</script><div>async function server_</div>"

/-- Instance-script program of document D. -/
def dProgram : JsNode :=
  .mk { kind := "Program", start := 8, «end» := 17 } []
    [.mk { kind := "VariableDeclaration", start := 8, «end» := 17 } []
       [.mk { kind := "VariableDeclarator", start := 12, «end» := 17 } []
          [ident "y" 12 13, lit 16 17]]]

/-- Markup fragment of document D. -/
def dFragment : JsNode :=
  .mk { kind := "Fragment", start := 26, «end» := 60 } []
    [.mk { kind := "RegularElement", start := 26, «end» := 60 } []
       [.mk { kind := "Text", start := 31, «end» := 53 } [] []]]

/-- Parse of document D. -/
def dAst : Root := { instanceContent := some dProgram, fragment := some dFragment }

/-- Oracle knowing document D. -/
def dParse : Parse := oracleOf [(dText.data, dAst)]

/-- Filename of document D. -/
def dFile : String := "/app/src/routes/d.svelte"

/-! Document E: a single tagged function with no call sites, used for the
endpoint-sweep scenarios. -/

/-- Document E text; the declaration spans `[8, 46)`. -/
def eText : String := "<script>async function server_g() \x7b return 1 \x7d</script>"

/-- The declaration `async function server_g() { return 1 }` at `[8, 46)`. -/
def eFunc : JsNode :=
  .mk { kind := "FunctionDeclaration", start := 8, «end» := 46, async := true,
        idName := some "server_g" } []
    [ident "server_g" 23 31,
     .mk { kind := "BlockStatement", start := 34, «end» := 46 } []
       [.mk { kind := "ReturnStatement", start := 36, «end» := 44 } [] [lit 43 44]]]

/-- Instance-script program of document E. -/
def eProgram : JsNode :=
  .mk { kind := "Program", start := 8, «end» := 46 } [] [eFunc]

/-- Parse of document E. -/
def eAst : Root := { instanceContent := some eProgram, fragment := some emptyFragment }

/-- Oracle knowing document E. -/
def eParse : Parse := oracleOf [(eText.data, eAst)]

/-- Full path of document E inside the project. -/
def eFile : String := "/app/src/routes/+page.svelte"

/-- Initial project filesystem for the sweep scenarios: just document E. -/
def eFS : FS := ⟨[(eFile, eText.data)]⟩

/-- The `ServerFunction` record the locator produces for document E. -/
def eServerFunc : ServerFunction :=
  { name := "server_g", node := eFunc, start := 8, «end» := 46 }

/-- The function details extracted for document E (no imports). -/
def eDetails : AstUtils.FunctionDetails :=
  { imports := [],
    functionDefinition := ("async function server_g() \x7b return 1 \x7d").data }

end Docs

/-! Specification-side definitions, written from the spec's wording
(§4.2, §4.4, §4.6).  These are compared with the source embeddings through
the characterization lemmas below. -/

mutual

/-- All nodes of a subtree in visitor (pre-order) enumeration. -/
def preorderNode : JsNode → List JsNode
  | .mk d args children => .mk d args children :: (preorderList args ++ preorderList children)
termination_by structural x => x

/-- Pre-order enumeration of a child list. -/
def preorderList : List JsNode → List JsNode
  | [] => []
  | n :: ns => preorderNode n ++ preorderList ns
termination_by structural x => x

end

mutual

/-- All nodes of a subtree that do not lie inside (or at) an import
declaration. -/
def preorderNonImportNode : JsNode → List JsNode
  | .mk d args children =>
    if d.kind == "ImportDeclaration" then []
    else .mk d args children :: (preorderNonImportList args ++ preorderNonImportList children)
termination_by structural x => x

/-- Non-import pre-order enumeration of a child list. -/
def preorderNonImportList : List JsNode → List JsNode
  | [] => []
  | n :: ns => preorderNonImportNode n ++ preorderNonImportList ns
termination_by structural x => x

end

/-- The `ServerFunction` record built from a qualifying declaration node. -/
def mkServerFunction (n : JsNode) : ServerFunction :=
  { name := n.data.idName.getD "", node := n, start := n.data.start, «end» := n.data.«end» }

/-- All nodes of the primary script region. -/
def instanceNodes (ast : Root) : List JsNode :=
  match ast.instanceContent with
  | none => []
  | some c => preorderNode c

/-- Spec-side used-identifier set (§4.6 set (b)): names of identifier nodes
in the primary script region that lie outside every import declaration. -/
def scriptIdentifiers (ast : Root) : List String :=
  (((match ast.instanceContent with
     | none => []
     | some c => preorderNonImportNode c : List JsNode)).filter
      (fun n => n.data.kind == "Identifier")).map (fun n => n.data.name.getD "")

/-- Spec-side call-site node set (§4.4): every node across both regions
whose callee identifier equals the target name. -/
def callNodes (ast : Root) (functionName : String) : List JsNode :=
  ((match ast.fragment with
    | none => []
    | some fr => preorderNode fr) ++
   (match ast.instanceContent with
    | none => []
    | some c => preorderNode c)).filter
    (fun n => AstUtils.isCallTo functionName n.data)

/-! Characterization lemmas: each source visitor equals the corresponding
filter/map over the pre-order enumeration. -/

mutual

/-- The server-function visitor collects exactly the qualifying nodes of the
pre-order enumeration. -/
theorem findServerFunctionsNode_eq (n : JsNode) :
    AstUtils.findServerFunctionsNode n =
      ((preorderNode n).filter (fun m => AstUtils.isServerFunctionNode m.data)).map
        mkServerFunction := by
  cases n with
  | mk d args children =>
    rw [AstUtils.findServerFunctionsNode, preorderNode,
      findServerFunctionsList_eq args, findServerFunctionsList_eq children]
    simp only [List.filter_cons, List.filter_append, List.map_append, JsNode.data]
    split <;> simp [mkServerFunction, JsNode.data]

/-- List version of `findServerFunctionsNode_eq`. -/
theorem findServerFunctionsList_eq (l : List JsNode) :
    AstUtils.findServerFunctionsList l =
      ((preorderList l).filter (fun m => AstUtils.isServerFunctionNode m.data)).map
        mkServerFunction := by
  cases l with
  | nil => rfl
  | cons n ns =>
    rw [AstUtils.findServerFunctionsList, preorderList,
      findServerFunctionsNode_eq n, findServerFunctionsList_eq ns]
    simp [List.filter_append]

end

/-- `findServerFunctions` is the filtered pre-order enumeration of the
script region. -/
theorem findServerFunctions_eq (ast : Root) :
    AstUtils.findServerFunctions ast =
      ((instanceNodes ast).filter (fun m => AstUtils.isServerFunctionNode m.data)).map
        mkServerFunction := by
  unfold AstUtils.findServerFunctions instanceNodes
  cases ast.instanceContent with
  | none => rfl
  | some c => exact findServerFunctionsNode_eq c

mutual

/-- The call visitor collects exactly the matching nodes of the pre-order
enumeration. -/
theorem findCallsNode_eq (functionName : String) (n : JsNode) :
    AstUtils.findCallsNode functionName n =
      ((preorderNode n).filter (fun m => AstUtils.isCallTo functionName m.data)).map
        AstUtils.mkFunctionCall := by
  cases n with
  | mk d args children =>
    rw [AstUtils.findCallsNode, preorderNode,
      findCallsList_eq functionName args, findCallsList_eq functionName children]
    simp only [List.filter_cons, List.filter_append, List.map_append, JsNode.data]
    split <;> simp

/-- List version of `findCallsNode_eq`. -/
theorem findCallsList_eq (functionName : String) (l : List JsNode) :
    AstUtils.findCallsList functionName l =
      ((preorderList l).filter (fun m => AstUtils.isCallTo functionName m.data)).map
        AstUtils.mkFunctionCall := by
  cases l with
  | nil => rfl
  | cons n ns =>
    rw [AstUtils.findCallsList, preorderList,
      findCallsNode_eq functionName n, findCallsList_eq functionName ns]
    simp [List.filter_append]

end

/-- `findFunctionCalls` is the record image of the spec-side call-node set
(fragment first, then instance). -/
theorem findFunctionCalls_eq (ast : Root) (functionName : String) :
    AstUtils.findFunctionCalls ast functionName =
      (callNodes ast functionName).map AstUtils.mkFunctionCall := by
  unfold AstUtils.findFunctionCalls callNodes
  cases ast.fragment with
  | none =>
    cases ast.instanceContent with
    | none => rfl
    | some c => simpa using findCallsNode_eq functionName c
  | some fr =>
    cases ast.instanceContent with
    | none => simpa [List.filter_append] using findCallsNode_eq functionName fr
    | some c =>
      simp [List.filter_append, findCallsNode_eq, List.map_append]

mutual

/-- The used-identifier visitor collects exactly the identifier names of the
non-import pre-order enumeration. -/
theorem collectUsedNode_eq (n : JsNode) :
    AstUtils.collectUsedNode n =
      ((preorderNonImportNode n).filter (fun m => m.data.kind == "Identifier")).map
        (fun m => m.data.name.getD "") := by
  cases n with
  | mk d args children =>
    rw [AstUtils.collectUsedNode, preorderNonImportNode]
    by_cases h : d.kind == "ImportDeclaration"
    · simp [h]
    · simp only [h, if_neg, Bool.false_eq_true, not_false_eq_true, if_false]
      rw [collectUsedList_eq args, collectUsedList_eq children]
      simp only [List.filter_cons, List.filter_append, List.map_append, JsNode.data]
      split <;> simp

/-- List version of `collectUsedNode_eq`. -/
theorem collectUsedList_eq (l : List JsNode) :
    AstUtils.collectUsedList l =
      ((preorderNonImportList l).filter (fun m => m.data.kind == "Identifier")).map
        (fun m => m.data.name.getD "") := by
  cases l with
  | nil => rfl
  | cons n ns =>
    rw [AstUtils.collectUsedList, preorderNonImportList,
      collectUsedNode_eq n, collectUsedList_eq ns]
    simp [List.filter_append]

end

/-- `collectUsedIdentifiers` computes the spec-side script-region identifier
set: identifiers of the primary script region outside import declarations,
and nothing from the markup region. -/
theorem collectUsedIdentifiers_eq (ast : Root) :
    AstUtils.collectUsedIdentifiers ast = scriptIdentifiers ast := by
  unfold AstUtils.collectUsedIdentifiers scriptIdentifiers
  cases ast.instanceContent with
  | none => rfl
  | some c => exact collectUsedNode_eq c

mutual

/-- The unused-import visitor collects exactly the spans of import
declarations all of whose local names avoid the given set. -/
theorem findUnusedImportsNode_eq (used : List String) (n : JsNode) :
    AstUtils.findUnusedImportsNode used n =
      ((preorderNode n).filter
        (fun m => m.data.kind == "ImportDeclaration" && AstUtils.allSpecifiersUnused used m.data)).map
        (fun m => { start := m.data.start, «end» := m.data.«end» }) := by
  cases n with
  | mk d args children =>
    rw [AstUtils.findUnusedImportsNode, preorderNode,
      findUnusedImportsList_eq used args, findUnusedImportsList_eq used children]
    simp only [List.filter_cons, List.filter_append, List.map_append, JsNode.data]
    split <;> simp

/-- List version of `findUnusedImportsNode_eq`. -/
theorem findUnusedImportsList_eq (used : List String) (l : List JsNode) :
    AstUtils.findUnusedImportsList used l =
      ((preorderList l).filter
        (fun m => m.data.kind == "ImportDeclaration" && AstUtils.allSpecifiersUnused used m.data)).map
        (fun m => { start := m.data.start, «end» := m.data.«end» }) := by
  cases l with
  | nil => rfl
  | cons n ns =>
    rw [AstUtils.findUnusedImportsList, preorderList,
      findUnusedImportsNode_eq used n, findUnusedImportsList_eq used ns]
    simp [List.filter_append]

end

/-- `findUnusedImports` collects exactly the spans of script-region import
declarations with no used local name. -/
theorem findUnusedImports_eq (ast : Root) (used : List String) :
    AstUtils.findUnusedImports ast used =
      ((instanceNodes ast).filter
        (fun m => m.data.kind == "ImportDeclaration" && AstUtils.allSpecifiersUnused used m.data)).map
        (fun m => { start := m.data.start, «end» := m.data.«end» }) := by
  unfold AstUtils.findUnusedImports instanceNodes
  cases ast.instanceContent with
  | none => rfl
  | some c => exact findUnusedImportsNode_eq used c

/-! Support lemmas about the hash and path generation. -/

/-- The digest always has 32 bytes, whatever the final state. -/
theorem digestBytes_length (st : Sha256.Hash8) : (Sha256.digestBytes st).length = 32 := by
  simp [Sha256.digestBytes, Sha256.wordBytes]

/-- SHA-256 digests have 32 bytes. -/
theorem sha256_length (msg : List Nat) : (Sha256.sha256 msg).length = 32 :=
  digestBytes_length _

/-- Base64url of at least 6 bytes has at least 8 characters. -/
theorem base64url_len_ge8 : ∀ (l : List Nat), 6 ≤ l.length → 8 ≤ (base64url l).length
  | _ :: _ :: _ :: _ :: _ :: _ :: _, _ => by
    rw [base64url, base64url]
    simp
  | [], h => by simp at h
  | [_], h => by simp at h
  | [_, _], h => by simp at h
  | [_, _, _], h => by simp at h
  | [_, _, _, _], h => by simp at h
  | [_, _, _, _, _], h => by simp at h

/-- The truncated hash always has exactly 8 characters. -/
theorem hashOf_length (s : String) : (PathUtils.hashOf s).length = 8 := by
  show ((base64url (Sha256.sha256 (utf8Bytes s))).take 8).length = 8
  rw [List.length_take]
  have h8 : 8 ≤ (base64url (Sha256.sha256 (utf8Bytes s))).length :=
    base64url_len_ge8 _ (by rw [sha256_length]; omega)
  omega

/-- Strings with equal character data are equal. -/
theorem string_data_inj {s t : String} (h : s.data = t.data) : s = t := by
  cases s
  cases t
  exact congrArg String.mk h

/-- A name followed by an underscore and a fixed-width hash determines the
name. -/
theorem append_hash_inj (n₁ n₂ h₁ h₂ : String) (hl₁ : h₁.length = 8) (hl₂ : h₂.length = 8)
    (e : n₁ ++ "_" ++ h₁ = n₂ ++ "_" ++ h₂) : n₁ = n₂ := by
  apply string_data_inj
  have e' : n₁.data ++ ('_' :: h₁.data) = n₂.data ++ ('_' :: h₂.data) := by
    have e2 := congrArg String.data e
    simpa [List.append_assoc] using e2
  have hlen : ('_' :: h₁.data).length = ('_' :: h₂.data).length := by
    have d1 : h₁.data.length = 8 := hl₁
    have d2 : h₂.data.length = 8 := hl₂
    simp [d1, d2]
  exact (List.append_inj' e' hlen).1

/-- The shape of the generated route path. -/
theorem generatePaths_routePath (functionName : String) (filename : Option String)
    (cwd : String) :
    (PathUtils.generatePaths functionName filename cwd).routePath =
      functionName ++ "_" ++
        PathUtils.hashOf (PathUtils.relativePathOf filename cwd ++ ":" ++ functionName) := rfl

/-- A zero-width slice is empty. -/
theorem sliceL_self (l : List Char) (a : Nat) : sliceL l a a = [] := by
  unfold sliceL
  exact List.drop_eq_nil_of_le (by simp)

/-- Validation of the SHA-256 embedding against the FIPS 180-4 test vector
for the message "abc". -/
theorem sha256_test_vector :
    Sha256.sha256 (utf8Bytes "abc") =
      [186, 120, 22, 191, 143, 1, 207, 234, 65, 65, 64, 222, 93, 174, 34, 35,
       176, 3, 97, 163, 150, 23, 122, 156, 180, 16, 255, 97, 242, 0, 21, 173] := by
  decide

/-- Validation of the truncated base64url hash against Node's
`createHash('sha256').update('abc').digest('base64url').slice(0, 8)`. -/
theorem hashOf_test_vector : PathUtils.hashOf "abc" = "ungWv48B" := by decide

/-! Claim theorems. -/

/-- C1.  The claim states that transforming a document with a tagged function
having `n` call sites leaves zero name-matching calls and exactly `n` intact
synthesized fetch expressions in their place.  Document A has one tagged
function with one call site, yet the transformed output still contains the
complete original declaration text and contains no intact synthesized fetch
expression: the call replacement lengthens the buffer before the declaration
span (taken from the pre-edit tree) is spliced out, so the splice removes a
chunk of the inserted fetch text instead of the declaration. -/
theorem claim1_transform_eval :
    ((AstUtils.findServerFunctions Docs.aAst).length = 1) ∧
    ((AstUtils.findFunctionCalls Docs.aAst "server_f").length = 1) ∧
    (includesL Docs.aDefText.data
      (transformFile Docs.aParse "/app" Docs.aText.data (some Docs.aFile)) = true) ∧
    (includesL
      (ServerFunctionTransformer.generateFetchCall
        (PathUtils.generatePaths "server_f" (some Docs.aFile) "/app").routePath [])
      (transformFile Docs.aParse "/app" Docs.aText.data (some Docs.aFile)) = false) := by
  refine ⟨by decide, by decide, by decide, by decide⟩

/-- C2.  Counterexample to "any parse failure, at any stage, returns the
original untouched text": on document A the initial parse succeeds, the
re-parse performed for import pruning fails (the edited buffer is malformed),
and the transform returns the partially transformed buffer, which differs
from the original input. -/
theorem claim2_counterexample :
    ((Docs.aParse Docs.aText.data).isSome = true) ∧
    ((Docs.aParse (ServerFunctionTransformer.spliceOut
        (ServerFunctionTransformer.replaceCalls
          (PathUtils.generatePaths "server_f" (some Docs.aFile) "/app").routePath
          Docs.aText.data (AstUtils.findFunctionCalls Docs.aAst "server_f")) 28 66)).isNone
      = true) ∧
    (transformFile Docs.aParse "/app" Docs.aText.data (some Docs.aFile) =
      ServerFunctionTransformer.spliceOut
        (ServerFunctionTransformer.replaceCalls
          (PathUtils.generatePaths "server_f" (some Docs.aFile) "/app").routePath
          Docs.aText.data (AstUtils.findFunctionCalls Docs.aAst "server_f")) 28 66) ∧
    (transformFile Docs.aParse "/app" Docs.aText.data (some Docs.aFile) ≠ Docs.aText.data) := by
  refine ⟨by decide, by decide, by decide, by decide⟩

/-- C2 (amended).  A failure of the initial parse makes the per-document
transform return the original text; a failure of the re-parse performed
for import pruning is caught locally inside `cleanupUnusedImports`, which
returns the buffer as it stands (already partially transformed), and the
build is not aborted. -/
theorem claim2_parse_failure (p : Parse) (cwd : String) (content c : List Char)
    (filename : Option String) :
    (p content = none → transformFile p cwd content filename = content) ∧
    (p c = none → ServerFunctionTransformer.cleanupUnusedImports p c = c) := by
  constructor
  · intro h
    unfold transformFile
    split
    · rfl
    · unfold ServerFunctionTransformer.process
      rw [h]
  · intro h
    unfold ServerFunctionTransformer.cleanupUnusedImports
    rw [h]

/-- C2 (witness): the amended theorem applied at a document whose parse the
oracle of document A does not know. -/
theorem claim2_parse_failure_witness :
    transformFile Docs.aParse "/app" Docs.dText.data (some Docs.dFile) = Docs.dText.data ∧
    ServerFunctionTransformer.cleanupUnusedImports Docs.aParse Docs.dText.data =
      Docs.dText.data :=
  ⟨(claim2_parse_failure Docs.aParse "/app" Docs.dText.data Docs.dText.data
      (some Docs.dFile)).1 rfl,
   (claim2_parse_failure Docs.aParse "/app" Docs.dText.data Docs.dText.data
      (some Docs.dFile)).2 rfl⟩

/-- C3.  On document A, the span `[28, 66)` is the tagged declaration in the
original buffer, but after the call replacements mutate the buffer the same
span — which `transformServerFunction` then splices out, since `this.ast`
is never re-parsed — no longer holds the declaration text: a stale span from
the pre-edit tree is applied to the mutated buffer. -/
theorem claim3_stale_span_eval :
    (sliceL Docs.aText.data 28 66 = Docs.aDefText.data) ∧
    (sliceL
      (ServerFunctionTransformer.replaceCalls
        (PathUtils.generatePaths "server_f" (some Docs.aFile) "/app").routePath
        Docs.aText.data (AstUtils.findFunctionCalls Docs.aAst "server_f")) 28 66
      ≠ Docs.aDefText.data) := by
  refine ⟨by decide, by decide⟩

/-- C4.  Counterexample to the retention half of the claim, which says that
an import with a local name still used elsewhere in the document is kept:
in document B the imported name `X` is used in the markup region (it occurs
among the markup identifiers both before and after the transform), yet the
transformed document no longer contains the import declaration, because
only primary-script-region usage counts. -/
theorem claim4_counterexample :
    ((AstUtils.identifiersInNode Docs.bFragment).contains "X" = true) ∧
    ((AstUtils.identifiersInNode Docs.bEditedFragment).contains "X" = true) ∧
    (includesL ("import \x7b X \x7d from 'x';").data Docs.bText.data = true) ∧
    (includesL ("import \x7b X \x7d from 'x';").data
      (transformFile Docs.bParse "/app" Docs.bText.data (some Docs.bFile)) = false) ∧
    (transformFile Docs.bParse "/app" Docs.bText.data (some Docs.bFile) =
      ("<script>\n</script>\n<p>\x7bX\x7d</p>").data) := by
  refine ⟨by decide, by decide, by decide, by decide, by decide⟩

/-- C4 (amended).  After the transform edits the buffer and the re-parse
succeeds, an import declaration is pruned iff none of its locally-bound
names occurs as an identifier outside import declarations in the re-parsed
primary script region (markup-region usage does not retain an import
declaration), and the buffer returned is the edited buffer with exactly
those spans spliced out, processed in descending start order. -/
theorem claim4_import_pruning (p : Parse) (content : List Char) (ast : Root)
    (h : p content = some ast) :
    (∀ imp : ImportNode,
      imp ∈ AstUtils.findUnusedImports ast (AstUtils.collectUsedIdentifiers ast) ↔
        ∃ n, n ∈ instanceNodes ast ∧ n.data.kind = "ImportDeclaration" ∧
          (∀ s ∈ n.data.specifiers, ¬ s ∈ scriptIdentifiers ast) ∧
          imp = { start := n.data.start, «end» := n.data.«end» }) ∧
    ServerFunctionTransformer.cleanupUnusedImports p content =
      (jsSort (fun a b => decide (b.start ≤ a.start))
        (AstUtils.findUnusedImports ast (AstUtils.collectUsedIdentifiers ast))).foldl
        (fun c i => ServerFunctionTransformer.spliceOut c i.start i.«end») content := by
  constructor
  · intro imp
    rw [findUnusedImports_eq, collectUsedIdentifiers_eq]
    constructor
    · intro hi
      obtain ⟨n, hn, rfl⟩ := List.mem_map.mp hi
      obtain ⟨hmem, hp⟩ := List.mem_filter.mp hn
      rw [Bool.and_eq_true, beq_iff_eq] at hp
      refine ⟨n, hmem, hp.1, ?_, rfl⟩
      intro s hs
      have := hp.2
      rw [AstUtils.allSpecifiersUnused, List.all_eq_true] at this
      have hcontains := this s hs
      simpa using hcontains
    · rintro ⟨n, hmem, hkind, hforall, rfl⟩
      refine List.mem_map_of_mem _ (List.mem_filter.mpr ⟨hmem, ?_⟩)
      rw [Bool.and_eq_true, beq_iff_eq]
      refine ⟨hkind, ?_⟩
      rw [AstUtils.allSpecifiersUnused, List.all_eq_true]
      intro s hs
      simpa using hforall s hs
  · unfold ServerFunctionTransformer.cleanupUnusedImports
    rw [h]

/-- C4 (witness): the amended theorem applied to document B's edited buffer,
whose re-parse the oracle knows. -/
theorem claim4_import_pruning_witness :
    ServerFunctionTransformer.cleanupUnusedImports Docs.bParse Docs.bEdited.data =
      (jsSort (fun a b => decide (b.start ≤ a.start))
        (AstUtils.findUnusedImports Docs.bEditedAst
          (AstUtils.collectUsedIdentifiers Docs.bEditedAst))).foldl
        (fun c i => ServerFunctionTransformer.spliceOut c i.start i.«end») Docs.bEdited.data :=
  (claim4_import_pruning Docs.bParse Docs.bEdited.data Docs.bEditedAst rfl).2

/-- C5.  Counterexample to "identified only if it is a top-level function
declaration": in document C the declaration `server_n` is nested inside the
body of `outer` — it is not among the program's direct children — yet the
locator reports it. -/
theorem claim5_counterexample :
    (((AstUtils.findServerFunctions Docs.cAst).map (fun f => f.name)).contains "server_n"
      = true) ∧
    (Docs.cProgram.children.all (fun n => n.data.idName != some "server_n") = true) := by
  refine ⟨by decide, by decide⟩

/-- C5 (amended).  A declaration is identified as a server function iff it is
a function declaration anywhere (at any nesting depth) in the primary script
region, is asynchronous, and its name starts with `server_`; the markup
region never contributes a server function, and non-qualifying declarations
are silently ignored (they simply do not appear in the result). -/
theorem claim5_tagged_function_rule (inst : JsNode) (fr : Option JsNode) (f : ServerFunction) :
    (f ∈ AstUtils.findServerFunctions ⟨some inst, fr⟩ ↔
      ∃ n, n ∈ preorderNode inst ∧ AstUtils.isServerFunctionNode n.data = true ∧
        f = mkServerFunction n) ∧
    (∀ fr', AstUtils.findServerFunctions ⟨some inst, fr⟩ =
      AstUtils.findServerFunctions ⟨some inst, fr'⟩) ∧
    AstUtils.findServerFunctions ⟨none, fr⟩ = [] := by
  refine ⟨?_, fun fr' => rfl, rfl⟩
  rw [findServerFunctions_eq]
  show f ∈ ((preorderNode inst).filter _).map _ ↔ _
  constructor
  · intro hf
    obtain ⟨n, hn, rfl⟩ := List.mem_map.mp hf
    obtain ⟨hmem, hp⟩ := List.mem_filter.mp hn
    exact ⟨n, hmem, hp, rfl⟩
  · rintro ⟨n, hmem, hp, rfl⟩
    exact List.mem_map_of_mem _ (List.mem_filter.mpr ⟨hmem, hp⟩)

/-- C6.  Counterexample to "changing the path changes the resulting id": two
distinct project-relative document paths whose truncated 8-character hashes
collide, so both pairs generate the identical id, route path and endpoint
path for the same function name. -/
theorem claim6_counterexample :
    (PathUtils.relativePathOf (some "/app/src/r1481421.svelte") "/app" ≠
      PathUtils.relativePathOf (some "/app/src/r20461742.svelte") "/app") ∧
    PathUtils.generatePaths "server_f" (some "/app/src/r1481421.svelte") "/app" =
      PathUtils.generatePaths "server_f" (some "/app/src/r20461742.svelte") "/app" := by
  refine ⟨by decide, by decide⟩

/-- C6 (amended).  Path generation is a pure deterministic function of the
(project-relative path, function name) pair — identical inputs give identical
results — and changing the function name always changes the route path;
changing only the path, however, changes the route path only when the
truncated hashes differ (the counterexample above shows a collision). -/
theorem claim6_stable_id (n₁ n₂ : String) (f : Option String) (cwd : String)
    (hne : n₁ ≠ n₂) :
    (PathUtils.generatePaths n₁ f cwd = PathUtils.generatePaths n₁ f cwd) ∧
    (PathUtils.generatePaths n₁ f cwd).routePath ≠
      (PathUtils.generatePaths n₂ f cwd).routePath := by
  refine ⟨rfl, ?_⟩
  intro he
  apply hne
  rw [generatePaths_routePath, generatePaths_routePath] at he
  exact append_hash_inj n₁ n₂ _ _ (hashOf_length _) (hashOf_length _) he

/-- C6 (witness): the amended theorem applied at two concrete function
names. -/
theorem claim6_stable_id_witness :
    (PathUtils.generatePaths "server_a" none "/app" =
      PathUtils.generatePaths "server_a" none "/app") ∧
    (PathUtils.generatePaths "server_a" none "/app").routePath ≠
      (PathUtils.generatePaths "server_b" none "/app").routePath :=
  claim6_stable_id "server_a" "server_b" none "/app" (by decide)

/-- C7.  The per-document transform is idempotent on documents without
tagged functions: whenever the parse of the content (if it succeeds at all)
locates no server function — in particular on the output of a previous
transform, from which every tagged declaration was removed — `transformFile`
returns the content unchanged.  (The skip paths and the fail-open path also
return the content unchanged, so the hypothesis only needs to constrain the
successful-parse case.) -/
theorem claim7_idempotent (p : Parse) (cwd : String) (content : List Char)
    (filename : Option String)
    (h : ∀ ast, p content = some ast → (AstUtils.findServerFunctions ast).isEmpty = true) :
    transformFile p cwd content filename = content := by
  unfold transformFile
  split
  · rfl
  · unfold ServerFunctionTransformer.process
    cases hp : p content with
    | none => rfl
    | some ast =>
      have hempty := h ast hp
      simp [hempty]

/-- C7 (witness): document D contains the textual marker (in markup text)
but declares no function, so the transform leaves it unchanged. -/
theorem claim7_idempotent_witness :
    transformFile Docs.dParse "/app" Docs.dText.data (some Docs.dFile) = Docs.dText.data :=
  claim7_idempotent Docs.dParse "/app" Docs.dText.data (some Docs.dFile)
    (fun ast h => by
      have h2 : some Docs.dAst = some ast := h
      cases Option.some.inj h2
      decide)

/-- C8.  Counterexample to "running a full sweep twice over unchanged source
produces zero endpoint-file writes on the second run": the source file is
unchanged after the first sweep, yet the second sweep performs a write,
because each sweep first deletes every generated `server_*` endpoint
directory and then recreates it. -/
theorem claim8_counterexample :
    ((runSweep Docs.eParse "/app" ⟨Docs.eFS, 0⟩).fs.read Docs.eFile =
      some Docs.eText.data) ∧
    (1 ≤ (runSweep Docs.eParse "/app"
      ⟨(runSweep Docs.eParse "/app" ⟨Docs.eFS, 0⟩).fs, 0⟩).writes) := by
  refine ⟨by decide, by decide⟩

/-- C8 (amended).  Endpoint emission is a conditional write: the rendered
handler content is compared against any existing file at the target path and
nothing is written when they agree — but since every full sweep begins by
deleting the generated endpoint directories, a second full sweep rewrites
the endpoint files rather than performing zero writes. -/
theorem claim8_idempotent_write (p : Parse) (apiPath : String) (content : List Char)
    (serverFunc : ServerFunction) (eff : Effects) (det : AstUtils.FunctionDetails)
    (h1 : AstUtils.extractFunctionDetails p content serverFunc = some det)
    (h2 : eff.fs.read apiPath = some (EndpointManager.generateApiContent
      det.functionDefinition serverFunc.name det.imports)) :
    EndpointManager.createEndpoint p apiPath content serverFunc eff = eff := by
  unfold EndpointManager.createEndpoint
  rw [h1]
  have hex : eff.fs.existsFile apiPath = true := by
    unfold FS.existsFile
    rw [h2]
    rfl
  simp [hex, h2]

/-- C8 (witness): after the first sweep over document E's project, the
endpoint file holds exactly the rendered content, so re-emitting the same
endpoint performs no write. -/
theorem claim8_idempotent_write_witness :
    EndpointManager.createEndpoint Docs.eParse
      (PathUtils.generatePaths "server_g" (some Docs.eFile) "/app").apiPath
      Docs.eText.data Docs.eServerFunc
      ⟨(runSweep Docs.eParse "/app" ⟨Docs.eFS, 0⟩).fs, 0⟩ =
    ⟨(runSweep Docs.eParse "/app" ⟨Docs.eFS, 0⟩).fs, 0⟩ :=
  claim8_idempotent_write Docs.eParse
    (PathUtils.generatePaths "server_g" (some Docs.eFile) "/app").apiPath
    Docs.eText.data Docs.eServerFunc
    ⟨(runSweep Docs.eParse "/app" ⟨Docs.eFS, 0⟩).fs, 0⟩
    Docs.eDetails (by decide) (by decide)

/-- C9.  For every located call site whose call node has an empty argument
list, the locator assigns the zero-width argument span `[end - 1, end - 1)`
just before the call's closing position, the corresponding argument text
slice is empty, the rewrite replaces exactly the call span with a fetch call
built from that empty text, and the resulting payload is the empty object. -/
theorem claim9_empty_args (ast : Root) (functionName : String) (n : JsNode)
    (hn : n ∈ callNodes ast functionName) (hargs : n.args = []) :
    AstUtils.mkFunctionCall n ∈ AstUtils.findFunctionCalls ast functionName ∧
    (AstUtils.mkFunctionCall n).arguments.start = n.data.«end» - 1 ∧
    (AstUtils.mkFunctionCall n).arguments.«end» = n.data.«end» - 1 ∧
    (∀ content, sliceL content (AstUtils.mkFunctionCall n).arguments.start
      (AstUtils.mkFunctionCall n).arguments.«end» = []) ∧
    (∀ routePath content,
      ServerFunctionTransformer.replaceCall routePath content (AstUtils.mkFunctionCall n) =
        content.take n.data.start ++
          ServerFunctionTransformer.generateFetchCall routePath [] ++
          content.drop n.data.«end») ∧
    ServerFunctionTransformer.payloadStr [] = ['\x7b', '\x7d'] := by
  have hmk : AstUtils.mkFunctionCall n =
      { start := n.data.start, «end» := n.data.«end»,
        arguments := { start := n.data.«end» - 1, «end» := n.data.«end» - 1 } } := by
    unfold AstUtils.mkFunctionCall
    rw [hargs]
    rfl
  refine ⟨?_, ?_, ?_, ?_, ?_, rfl⟩
  · rw [findFunctionCalls_eq]
    exact List.mem_map_of_mem _ hn
  · rw [hmk]
  · rw [hmk]
  · intro content
    rw [hmk]
    exact sliceL_self content (n.data.«end» - 1)
  · intro routePath content
    unfold ServerFunctionTransformer.replaceCall
    rw [hmk]
    simp [sliceL_self]

/-- C9 (witness): the theorem applied at document A's zero-argument call
`server_f()`, whose span is `[16, 26)`. -/
theorem claim9_empty_args_witness :
    AstUtils.mkFunctionCall Docs.aCall ∈ AstUtils.findFunctionCalls Docs.aAst "server_f" ∧
    (AstUtils.mkFunctionCall Docs.aCall).arguments.start = 25 ∧
    (AstUtils.mkFunctionCall Docs.aCall).arguments.«end» = 25 ∧
    sliceL Docs.aText.data 25 25 = [] ∧
    ServerFunctionTransformer.payloadStr [] = ['\x7b', '\x7d'] := by
  have h := claim9_empty_args Docs.aAst "server_f" Docs.aCall
    (by
      rw [show callNodes Docs.aAst "server_f" = [Docs.aCall] from rfl]
      exact List.mem_singleton.mpr rfl)
    rfl
  exact ⟨h.1, h.2.1, h.2.2.1, h.2.2.2.1 Docs.aText.data, h.2.2.2.2.2⟩

/-- C10.  The per-document transform hooks returned by the preprocessor
mutate only the text buffer: for every filesystem state they return it
unchanged (their embedding threads it through untouched, as the source's
transform path contains no filesystem API call), while all endpoint
filesystem effects happen in the one-time startup sweep (cleanup followed by
scan-and-create). -/
theorem claim10_frame (p : Parse) (cwd : String) (eff : Effects) (fs : FS)
    (content : List Char) (filename : Option String) :
    ((serverFunctions p cwd eff).2.markup fs content filename).1 = fs ∧
    ((serverFunctions p cwd eff).2.script fs content filename).1 = fs ∧
    ((serverFunctions p cwd eff).2.style fs content).1 = fs ∧
    ((serverFunctions p cwd eff).2.markup fs content filename).2 =
      transformFile p cwd content filename ∧
    ((serverFunctions p cwd eff).2.style fs content).2 = content ∧
    (serverFunctions p cwd eff).1 = runSweep p cwd eff :=
  ⟨rfl, rfl, rfl, rfl, rfl, rfl⟩

end SSF
